import Mathlib

set_option linter.unusedVariables false

/-!
Verification of the resolver mapping layer of the appsync-cdk-chat-app stack
(src/lib/appsync-cdk-chat-app-stack.ts).

The repository declares four AppSync resolvers whose request/response
mapping templates (VTL) translate GraphQL operations into DynamoDB store
operations.  Following the spec's own guidance (section 9: "template-based
request/response transforms should be re-expressed as typed, pure
functions"), each template is embedded as a pure Lean function from the
request context to a structured store operation, and each response template
as a function from the store outcome to a response.  The VTL argument maps
are embedded as association lists with Java-Map `put` semantics
(replace-in-place or append), and `$util.defaultIfNull` as `Option.getD`.

Two textual defects of the source are modelled explicitly:
* line 167 of the createMessage request template lacks the `$` sigil on
  `util.qr`, so that call's text is emitted literally into the rendered
  request document (the inner `$context.args.input.put(...)` reference is
  still evaluated, so the side effect on the input map does occur);
* line 226 of the createRoom request template serializes `$condition`,
  a variable never set in that template's scope, so the rendered condition
  is JSON null and the PutItem carries no existence precondition.
-/

/-- A JSON-like attribute value as handled by the mapping templates
(`$util.dynamodb.toDynamoDBJson` accepts strings, numbers, booleans, null). -/
inductive Val where
  | str (s : String)
  | num (n : Int)
  | bool (b : Bool)
  | null
  deriving DecidableEq, Repr

/-- How Velocity renders a value as template text (used only for the stray
text emitted by the defective line 167). -/
def Val.render : Val → String
  | .str s => s
  | .num n => toString n
  | .bool b => toString b
  | .null => ""

/-- The GraphQL `input` argument object (`$ctx.args.input`), a Java map in the
template engine, embedded as an association list. -/
abbrev Obj := List (String × Val)

/-- Map lookup: the value bound to key `k`, as `$map.k` / `$map.get(k)`. -/
def Obj.get : Obj → String → Option Val
  | [], _ => none
  | p :: t, k => if p.1 = k then some p.2 else Obj.get t k

/-- Java-Map `put` as invoked by `$ctx.args.input.put(key, value)`: replace the
binding in place when the key is present, append otherwise. -/
def Obj.put : Obj → String → Val → Obj
  | [], k, v => [(k, v)]
  | p :: t, k, v => if p.1 = k then (k, v) :: t else p :: Obj.put t k v

theorem Obj.get_put_self (m : Obj) (k : String) (v : Val) :
    (m.put k v).get k = some v := by
  induction m with
  | nil => simp [Obj.put, Obj.get]
  | cons p t ih =>
    by_cases h : p.1 = k
    · simp [Obj.put, Obj.get, h]
    · simp [Obj.put, Obj.get, h, ih]

theorem Obj.get_put_ne (m : Obj) (k k2 : String) (v : Val) (hk : k ≠ k2) :
    (m.put k v).get k2 = m.get k2 := by
  induction m with
  | nil => simp [Obj.put, Obj.get, hk]
  | cons p t ih =>
    by_cases h : p.1 = k
    · simp [Obj.put, Obj.get, h, hk]
    · by_cases h2 : p.1 = k2
      · simp [Obj.put, Obj.get, h, h2, Ne.symm hk]
      · simp [Obj.put, Obj.get, h, h2, ih]

/-- The authenticated caller (`$context.identity`), supplied by the user-pool
authorizer configured at lines 109-114. -/
structure Identity where
  username : String
  deriving DecidableEq, Repr

/-- The per-invocation request environment visible to the templates beyond the
field arguments: the caller identity, and the values the two nondeterministic
utilities would produce in this invocation (`$util.autoId()` and
`$util.time.nowISO8601()`). -/
structure Ctx where
  identity : Identity
  autoId : String
  nowISO8601 : String
  deriving DecidableEq, Repr

/-- The DynamoDB `condition` object shape built by the createMessage template
(lines 171-176). -/
structure DDBCondition where
  expression : String
  expressionNames : List (String × String)
  deriving DecidableEq, Repr

/-- The structured content of the rendered `Query` store operation
(listMessageForRoom request template, lines 129-148). -/
structure QueryRequest where
  version : String
  expression : String
  expressionValueRoomId : Val
  scanIndexForward : Bool
  nextToken : Option String
  deriving DecidableEq, Repr

/-- The structured content of the rendered `Scan` store operation
(listRooms request template, lines 193-204).  The template builds the
`$ListRequest` map, so optional members are `Option`-valued; the template
never emits a `filter` member. -/
structure ScanRequest where
  version : String
  operation : Option String
  limit : Int
  nextToken : Option String
  filter : Option String
  deriving DecidableEq, Repr

/-- The structured content of the rendered `PutItem` store operation
(createMessage lines 177-185, createRoom lines 219-227).  `keyId` is the
value serialized under `"key": {"id": ...}`; `condition` is `none` when the
rendered condition member is JSON null. -/
structure PutItemRequest where
  version : String
  operation : String
  keyId : Option Val
  attributeValues : Obj
  condition : Option DDBCondition
  deriving DecidableEq, Repr

/-- listMessageForRoom request template (lines 129-148).  The `#if` at lines
139-144 sets `scanIndexForward` to false exactly when `sortDirection` is
non-null and equals "DESC"; the `#if` at lines 145-147 emits the `nextToken`
member exactly when the argument is present.  The template reads nothing from
the identity or the time/id utilities, so `ctx` is unused. -/
def listMessageForRoomRequest (roomId : Val) (sortDirection : Option String)
    (nextToken : Option String) (ctx : Ctx) : QueryRequest :=
  { version := "2017-02-28"
    expression := "roomId = :roomId"
    expressionValueRoomId := roomId
    scanIndexForward :=
      if sortDirection ≠ none ∧ sortDirection = some "DESC" then false else true
    nextToken := if nextToken.isSome then nextToken else none }

/-- listRooms request template (lines 193-204): `$limit` defaults to 1000 via
`$util.defaultIfNull`; `$ListRequest` starts with version and limit; the
`nextToken` member is set exactly when the argument is present; finally
`operation` is put to "Scan".  No filter member is ever emitted, and `ctx`
is unused. -/
def listRoomsRequest (limit : Option Int) (nextToken : Option String)
    (ctx : Ctx) : ScanRequest :=
  let listRequest : ScanRequest :=
    { version := "2018-05-29"
      operation := none
      limit := limit.getD 1000
      nextToken := none
      filter := none }
  let listRequest :=
    if nextToken.isSome then { listRequest with nextToken := nextToken }
    else listRequest
  { listRequest with operation := some "Scan" }

/-- createMessage pre-processing step 1 (line 164):
`$util.qr($context.args.input.put("id", $util.defaultIfNull($ctx.args.input.id, $util.autoId())))`. -/
def createMessageInput1 (input : Obj) (ctx : Ctx) : Obj :=
  input.put "id" ((input.get "id").getD (Val.str ctx.autoId))

/-- createMessage pre-processing step 2 (lines 166-167): after
`#set( $createdAt = $util.time.nowISO8601() )`, the reference
`$context.args.input.put("createdAt", $util.defaultIfNull($ctx.args.input.createdAt, $createdAt))`
is evaluated (the missing `$` on `util.qr` leaves stray template text,
modelled by `createMessagePreambleText` below, but does not stop the inner
reference from being evaluated), so the map side effect occurs. -/
def createMessageInput2 (input : Obj) (ctx : Ctx) : Obj :=
  (createMessageInput1 input ctx).put "createdAt"
    (((createMessageInput1 input ctx).get "createdAt").getD (Val.str ctx.nowISO8601))

/-- createMessage pre-processing step 3 (line 169):
`$util.qr($ctx.args.input.put("owner", $context.identity.username))`. -/
def createMessageInput (input : Obj) (ctx : Ctx) : Obj :=
  (createMessageInput2 input ctx).put "owner" (Val.str ctx.identity.username)

/-- The condition object set at lines 171-176 of the createMessage template. -/
def createMessageCondition : DDBCondition :=
  { expression := "attribute_not_exists(#id)"
    expressionNames := [("#id", "id")] }

/-- createMessage request template, JSON document portion (lines 177-185):
a PutItem whose key id is `$ctx.args.input.id` read after the three puts,
whose attributeValues serialize the whole post-put input map
(`$util.dynamodb.toMapValuesJson($context.args.input)`), and whose condition
is the object from lines 171-176. -/
def createMessageRequest (input : Obj) (ctx : Ctx) : PutItemRequest :=
  { version := "2018-05-29"
    operation := "PutItem"
    keyId := (createMessageInput input ctx).get "id"
    attributeValues := createMessageInput input ctx
    condition := some createMessageCondition }

/-- The non-whitespace text the createMessage request template emits before
its JSON document.  Lines 163, 165, 168, 170 are `##` comments, lines 164 and
169 are quiet references (`$util.qr` renders nothing), and lines 166 and
171-176 are `#set` directives (render nothing) — but on line 167 `util.qr(`
lacks the `$` sigil, so `util.qr(` and `)` are literal template text and the
inner `$context.args.input.put("createdAt", ...)` reference renders its own
value: the previous `createdAt` binding when one exists, or — Velocity's
rendering of a null-valued reference — the reference's source text. -/
def createMessagePreambleText (input : Obj) (ctx : Ctx) : String :=
  "util.qr(" ++
    (match (createMessageInput1 input ctx).get "createdAt" with
     | some v => v.render
     | none =>
         "$context.args.input.put(\"createdAt\", $util.defaultIfNull($ctx.args.input.createdAt, $createdAt))")
  ++ ")"

/-- createRoom pre-processing (line 218):
`$util.qr($context.args.input.put("id", $util.defaultIfNull($ctx.args.input.id, $util.autoId())))`. -/
def createRoomInput (input : Obj) (ctx : Ctx) : Obj :=
  input.put "id" ((input.get "id").getD (Val.str ctx.autoId))

/-- createRoom request template (lines 217-228): a PutItem keyed by the
post-put `$ctx.args.input.id`, with attributeValues serializing the post-put
input map.  Line 226 serializes `$util.toJson($condition)`, but `$condition`
is never set anywhere in this template's scope, so the argument is null and
the rendered member is `"condition": null` — no condition object, embedded
as `none`. -/
def createRoomRequest (input : Obj) (ctx : Ctx) : PutItemRequest :=
  { version := "2018-05-29"
    operation := "PutItem"
    keyId := (createRoomInput input ctx).get "id"
    attributeValues := createRoomInput input ctx
    condition := none }

/-- A store-reported error as exposed to response templates
(`$ctx.error.message`, `$ctx.error.type`). -/
structure StoreError where
  message : String
  type : String
  deriving DecidableEq, Repr

/-- A resolver response: either an error raised via
`$util.error(message, type)` or the JSON-serialized store result. -/
inductive Response (A : Type) where
  | err (message : String) (type : String)
  | ok (result : A)
  deriving DecidableEq, Repr

/-- listMessageForRoom response template (lines 150-156):
`#if( $ctx.error ) $util.error($ctx.error.message, $ctx.error.type)
#else $util.toJson($ctx.result) #end`. -/
def listMessageForRoomResponse {A : Type} (e : Option StoreError) (r : A) : Response A :=
  match e with
  | some err => Response.err err.message err.type
  | none => Response.ok r

/-- listRooms response template (lines 205-211), textually the same rule:
`#if( $ctx.error) $util.error($ctx.error.message, $ctx.error.type)
#else $util.toJson($ctx.result) #end`. -/
def listRoomsResponse {A : Type} (e : Option StoreError) (r : A) : Response A :=
  match e with
  | some err => Response.err err.message err.type
  | none => Response.ok r

/-- Modelled from the spec: the body of `MappingTemplate.dynamoDbResultItem()`
— the response template of createMessage (line 187) and createRoom
(line 229) — is aws-cdk library code not present in this repository.  The
spec's section 7 gives the rule it takes part in: "if the store call produced
an error, respond with that error's message and type unchanged; otherwise
respond with the store's result, JSON-serialized unchanged". -/
def dynamoDbResultItemResponse {A : Type} (e : Option StoreError) (r : A) : Response A :=
  match e with
  | some err => Response.err err.message err.type
  | none => Response.ok r

/-- The uniform error-passthrough rule, stated from the spec (section 7):
an error maps to its message and type unchanged, a success to the result
unchanged, with no other outcome. -/
def specUniformPassthrough {A : Type} (f : Option StoreError → A → Response A) : Prop :=
  ∀ (e : Option StoreError) (r : A),
    f e r = match e with
            | some err => Response.err err.message err.type
            | none => Response.ok r

/-- A stored table: records keyed by their partition key value `id`
(the external key-value store collaborator of spec section 2). -/
abbrev Table := List (Val × Obj)

/-- Whether the table already holds a record under the given key value. -/
def Table.hasKey (t : Table) (k : Option Val) : Bool :=
  t.any (fun e => some e.1 == k)

/-- The store contract for PutItem (spec sections 2 and 5): a conditional
insert — the only condition this stack ever renders is
`attribute_not_exists(#id)` on the request key — fails with a conditional
check error when a record with the request's key already exists and inserts
otherwise, while an unconditional PutItem (condition member null/absent)
overwrites any existing record under the key. -/
def putItemApply (t : Table) (req : PutItemRequest) : Except StoreError Table :=
  match req.condition with
  | some _ =>
      if t.hasKey req.keyId then
        Except.error
          { message := "The conditional request failed"
            type := "DynamoDB:ConditionalCheckFailedException" }
      else
        Except.ok (t ++ [(req.keyId.getD Val.null, req.attributeValues)])
  | none =>
      Except.ok
        ((t.filter (fun e => !(some e.1 == req.keyId)))
          ++ [(req.keyId.getD Val.null, req.attributeValues)])

/-- A concrete request environment used by the concrete evaluations below. -/
def sampleCtx : Ctx :=
  { identity := { username := "alice" }
    autoId := "auto-id-1"
    nowISO8601 := "2020-01-01T00:00:00.000Z" }

/-- C1: for every createMessage request, the attributeValues written to the
store bind `owner` to the authenticated caller's `identity.username` — the
line-169 put runs after any caller-supplied bindings, so a caller-supplied
`owner` value in the input has no effect on the stored owner. -/
theorem createMessage_owner_is_identity (input : Obj) (ctx : Ctx) :
    ((createMessageRequest input ctx).attributeValues).get "owner"
      = some (Val.str ctx.identity.username) :=
  Obj.get_put_self _ _ _

/-- C2: at a concrete createMessage request whose input lacks `createdAt`, the
line-167 put does execute — the attributeValues carry `createdAt` set to the
current ISO-8601 time — but, because line 167 lacks the `$` sigil on
`util.qr`, the template also emits stray literal text ahead of its JSON
document, so the rendered store request is not the clean JSON PutItem document
the claim describes: the pre-processing is not a silent transform followed by
the store write. -/
theorem createMessage_createdAt_line167_stray_text :
    ((createMessageRequest [("roomId", Val.str "room-1"), ("content", Val.str "hi")]
        sampleCtx).attributeValues.get "createdAt"
      = some (Val.str "2020-01-01T00:00:00.000Z"))
    ∧ createMessagePreambleText [("roomId", Val.str "room-1"), ("content", Val.str "hi")]
        sampleCtx
      = "util.qr($context.args.input.put(\"createdAt\", $util.defaultIfNull($ctx.args.input.createdAt, $createdAt)))"
    ∧ createMessagePreambleText [("roomId", Val.str "room-1"), ("content", Val.str "hi")]
        sampleCtx ≠ "" := by
  refine ⟨by decide, by decide, by decide⟩

/-- C3: the createRoom store operation carries no condition — `$condition` is
never defined in that template, so the rendered condition member is null —
and therefore a concrete createRoom whose `id` already exists in the table
overwrites the stored record instead of failing, unlike createMessage whose
operation does carry the not-exists condition. -/
theorem createRoom_condition_is_null :
    (createRoomRequest [("id", Val.str "room-1"), ("name", Val.str "general")]
        sampleCtx).condition = none
    ∧ putItemApply
        [(Val.str "room-1", [("id", Val.str "room-1"), ("name", Val.str "old")])]
        (createRoomRequest [("id", Val.str "room-1"), ("name", Val.str "general")]
          sampleCtx)
      = Except.ok
          [(Val.str "room-1", [("id", Val.str "room-1"), ("name", Val.str "general")])]
    ∧ (createMessageRequest [("id", Val.str "room-1")] sampleCtx).condition
      = some createMessageCondition := by
  refine ⟨by decide, rfl, by decide⟩

/-- C4: every createMessage store operation is a PutItem keyed by `id`
carrying the `attribute_not_exists(#id)` precondition, and on a table that
already holds a record under that key the store contract returns an error,
which the createMessage response transform surfaces to the caller as an error
response (never a success, with no retry path). -/
theorem createMessage_putItem_conditional_insert (input : Obj) (ctx : Ctx) (t : Table)
    (hdup : Table.hasKey t (createMessageRequest input ctx).keyId = true) :
    (createMessageRequest input ctx).operation = "PutItem"
    ∧ (createMessageRequest input ctx).condition = some createMessageCondition
    ∧ ∃ e : StoreError,
        putItemApply t (createMessageRequest input ctx) = Except.error e
        ∧ ∀ r : Obj, dynamoDbResultItemResponse (some e) r
            = Response.err e.message e.type := by
  refine ⟨rfl, rfl, ?_⟩
  refine ⟨{ message := "The conditional request failed"
            type := "DynamoDB:ConditionalCheckFailedException" }, ?_, fun r => rfl⟩
  have hdup2 : Table.hasKey t ((createMessageInput input ctx).get "id") = true := hdup
  unfold putItemApply
  simp [createMessageRequest, hdup2]

/-- Witness for C4 at a concrete duplicate-id table and input. -/
theorem createMessage_putItem_conditional_insert_witness :
    Table.hasKey [(Val.str "m-1", ([("id", Val.str "m-1")] : Obj))]
        (createMessageRequest [("id", Val.str "m-1")] sampleCtx).keyId = true
    ∧ ((createMessageRequest [("id", Val.str "m-1")] sampleCtx).operation = "PutItem"
        ∧ (createMessageRequest [("id", Val.str "m-1")] sampleCtx).condition
            = some createMessageCondition
        ∧ ∃ e : StoreError,
            putItemApply [(Val.str "m-1", ([("id", Val.str "m-1")] : Obj))]
                (createMessageRequest [("id", Val.str "m-1")] sampleCtx)
              = Except.error e
            ∧ ∀ r : Obj, dynamoDbResultItemResponse (some e) r
                = Response.err e.message e.type) :=
  ⟨by decide,
   createMessage_putItem_conditional_insert [("id", Val.str "m-1")] sampleCtx
     [(Val.str "m-1", ([("id", Val.str "m-1")] : Obj))] (by decide)⟩

/-- C5: the response transforms of all four operations follow the one uniform
passthrough rule of the spec — on a store error respond with its message and
type unchanged, otherwise respond with the store result unchanged
(createMessage and createRoom share `dynamoDbResultItemResponse`). -/
theorem responseTemplates_uniform_error_passthrough :
    (∀ A : Type, specUniformPassthrough (A := A) listMessageForRoomResponse)
    ∧ (∀ A : Type, specUniformPassthrough (A := A) listRoomsResponse)
    ∧ (∀ A : Type, specUniformPassthrough (A := A) dynamoDbResultItemResponse) := by
  refine ⟨fun A e r => ?_, fun A e r => ?_, fun A e r => ?_⟩ <;> cases e <;> rfl

/-- C6: the listMessageForRoom store query runs with scanIndexForward false
(createdAt descending) exactly when sortDirection is present and equals
"DESC"; when the argument is absent or any other value (such as "ASC") the
query is ascending. -/
theorem listMessageForRoom_sortDirection (roomId : Val) (sortDirection : Option String)
    (nextToken : Option String) (ctx : Ctx) :
    ((listMessageForRoomRequest roomId sortDirection nextToken ctx).scanIndexForward
        = false
      ↔ sortDirection = some "DESC") := by
  cases sortDirection with
  | none => simp [listMessageForRoomRequest]
  | some s =>
      by_cases hs : s = "DESC"
      · simp [listMessageForRoomRequest, hs]
      · simp [listMessageForRoomRequest, hs]

/-- C7: every listRooms store operation is a Scan with no filter, whose limit
is the caller-supplied limit defaulted to 1000, and whose nextToken member is
exactly the caller's cursor (absent when none was supplied). -/
theorem listRooms_scan_limit_nextToken (limit : Option Int)
    (nextToken : Option String) (ctx : Ctx) :
    (listRoomsRequest limit nextToken ctx).operation = some "Scan"
    ∧ (listRoomsRequest limit nextToken ctx).filter = none
    ∧ (listRoomsRequest limit nextToken ctx).limit = limit.getD 1000
    ∧ (listRoomsRequest limit nextToken ctx).nextToken = nextToken := by
  unfold listRoomsRequest
  cases nextToken <;> simp

/-- C8: both read-path request transforms forward a supplied nextToken to the
store operation unmodified, and emit no nextToken member when the argument is
absent. -/
theorem nextToken_forwarded_verbatim (roomId : Val) (sortDirection : Option String)
    (limit : Option Int) (nextToken : Option String) (ctx : Ctx) :
    (listMessageForRoomRequest roomId sortDirection nextToken ctx).nextToken = nextToken
    ∧ (listRoomsRequest limit nextToken ctx).nextToken = nextToken := by
  unfold listMessageForRoomRequest listRoomsRequest
  cases nextToken <;> simp

/-- C9: in both createMessage and createRoom the PutItem key id and the id
attribute inside the written attributeValues are rendered from the same
post-put input map, so they are equal, and both equal the caller-supplied id
defaulted to the freshly generated one. -/
theorem putItem_key_matches_attributeValues_id (input : Obj) (ctx : Ctx) :
    ((createMessageRequest input ctx).keyId
        = (createMessageRequest input ctx).attributeValues.get "id"
      ∧ (createMessageRequest input ctx).keyId
        = some ((input.get "id").getD (Val.str ctx.autoId)))
    ∧ ((createRoomRequest input ctx).keyId
        = (createRoomRequest input ctx).attributeValues.get "id"
      ∧ (createRoomRequest input ctx).keyId
        = some ((input.get "id").getD (Val.str ctx.autoId))) := by
  have hmsg : (createMessageInput input ctx).get "id"
      = some ((input.get "id").getD (Val.str ctx.autoId)) := by
    unfold createMessageInput createMessageInput2 createMessageInput1
    rw [Obj.get_put_ne _ _ _ _ (by decide)]
    rw [Obj.get_put_ne _ _ _ _ (by decide)]
    exact Obj.get_put_self _ _ _
  have hroom : (createRoomInput input ctx).get "id"
      = some ((input.get "id").getD (Val.str ctx.autoId)) :=
    Obj.get_put_self _ _ _
  exact ⟨⟨rfl, hmsg⟩, ⟨rfl, hroom⟩⟩

/-- C10: the read-path request transforms are deterministic functions of the
field arguments alone — the request environment (identity, generated id,
current time) does not enter a listMessageForRoom or listRooms store
operation. -/
theorem read_requests_deterministic (roomId : Val) (sortDirection : Option String)
    (limit : Option Int) (nt nt2 : Option String) (ctx1 ctx2 : Ctx) :
    listMessageForRoomRequest roomId sortDirection nt ctx1
      = listMessageForRoomRequest roomId sortDirection nt ctx2
    ∧ listRoomsRequest limit nt2 ctx1 = listRoomsRequest limit nt2 ctx2 :=
  ⟨rfl, rfl⟩
